import Mathlib

/-!
Shallow embedding of `src/script.js` (Luxury Liquor pre-booking platform).

The JavaScript program is a client-side storefront: a static product
catalog, a persisted single-product selection, form validation, and an
order-booking pipeline that writes a booking record to `localStorage`.

Modelling conventions:
* JS strings are Lean `String`s; `String.trim`-style builtins are
  re-implemented below so their behaviour is explicit.
* `localStorage` is modelled as a `Store` record with one typed slot per
  storage key used by the application (`CONFIG.STORAGE_KEYS`), plus a
  `setFails` flag modelling the `try/catch` failure path of
  `Storage.setItem` (quota exceeded / storage disabled).  JSON
  serialisation round-trips records unchanged, so values are stored
  directly.  `localStorage.removeItem` does not throw, so the remove
  wrapper always succeeds.
* Host/nondeterministic inputs (`Date.now()`, `Math.random()`,
  `toLocaleDateString`, `toISOString`) are passed in explicitly through
  an `OrderEnv` record.  The single ETA random draw
  `Math.floor(Math.random() * (MAX_DAYS - MIN_DAYS + 1))` is modelled by
  a natural number `etaDraw`; the JS expression always lies in
  `[0, MAX_DAYS - MIN_DAYS]`, which theorems take as a hypothesis.
* Presentation-layer side effects (`UIManager.*`, `console.*`) are
  ignored: they do not touch the persisted store.
-/

/-- Whitespace as matched by the JS `\s` character class and removed by
`String.prototype.trim` (common BMP whitespace characters). -/
def isJsWhitespace (c : Char) : Bool :=
  c == ' ' || c == '\t' || c == '\n' || c == '\r' ||
  c == Char.ofNat 11 || c == Char.ofNat 12 || c == Char.ofNat 160 || c == Char.ofNat 0xFEFF

/-- JS `String.prototype.trim`: drop leading and trailing whitespace. -/
def jsTrim (s : String) : String :=
  ⟨((s.data.dropWhile isJsWhitespace).reverse.dropWhile isJsWhitespace).reverse⟩

/-- JS `str.replace(/\s+/g, '')`: replacing every whitespace run by the
empty string removes exactly the whitespace characters. -/
def removeWhitespace (s : String) : String :=
  ⟨s.data.filter (fun c => !isJsWhitespace c)⟩

/-- Numeric value of a list of decimal digit characters, most significant
first (the accumulation performed by JS `parseInt` on the digit run). -/
def decimalVal (l : List Char) : Nat :=
  l.foldl (fun acc c => 10 * acc + (c.toNat - 48)) 0

/-- JS `parseInt(s, 10)`: skip leading whitespace, read an optional single
sign, then the longest run of decimal digits; `NaN` (here `none`) if that
run is empty, otherwise the signed value of the digit run (trailing
non-digit characters are ignored). -/
def parseInt10 (s : String) : Option Int :=
  let cs := s.data.dropWhile isJsWhitespace
  let signed : Bool × List Char :=
    match cs with
    | '-' :: rest => (true, rest)
    | '+' :: rest => (false, rest)
    | _ => (false, cs)
  let digits := signed.2.takeWhile Char.isDigit
  if digits.isEmpty then none
  else some (if signed.1 then -(decimalVal digits : Int) else (decimalVal digits : Int))

/- ========================================
   CONFIG (src/script.js lines 113-137)
   ======================================== -/

def CONFIG.MIN_DAYS : Nat := 2
def CONFIG.MAX_DAYS : Nat := 5
def CONFIG.WEEKEND_DELAY : Nat := 1
def CONFIG.MIN_NAME_LENGTH : Nat := 2
def CONFIG.MIN_ADDRESS_LENGTH : Nat := 10
def CONFIG.CURRENCY_SYMBOL : String := "₹"

/-- Test of `CONFIG.VALIDATION.PHONE_REGEX = /^[6-9]\d{9}$/`: a first
character in `'6'..'9'` followed by exactly nine decimal digits. -/
def phoneRegexTest (s : String) : Bool :=
  match s.data with
  | c :: rest => ('6' ≤ c && c ≤ '9') && rest.length == 9 && rest.all Char.isDigit
  | [] => false

/-- Test of `CONFIG.VALIDATION.PIN_REGEX = /^\d{6}$/`: exactly six decimal
digits. -/
def pinRegexTest (s : String) : Bool :=
  s.data.length == 6 && s.data.all Char.isDigit

/- ========================================
   PRODUCT_CATALOG (src/script.js lines 26-107)
   ======================================== -/

structure Product where
  id : String
  name : String
  price : Nat
  abv : Nat
  image : String
  category : String
  description : String
deriving DecidableEq

structure Catalog where
  products : List Product
deriving DecidableEq

/-- The static product catalog (promotional offers are display-only and
never consumed by the booking pipeline, so they are not modelled). -/
def PRODUCT_CATALOG : Catalog :=
  { products := [
      { id := "jack-premium-whisky", name := "Premium Whisky - Jack Daniels",
        price := 1299, abv := 40, image := "images/jack.jpg", category := "whisky",
        description := "Tennessee whiskey with smooth vanilla finish" },
      { id := "jameson-irish-whisky", name := "Jameson Irish Whisky",
        price := 1199, abv := 40, image := "images/jameson.jpg", category := "whisky",
        description := "Triple-distilled Irish whiskey with citrus notes" },
      { id := "luxury-premium-vodka", name := "Luxury Premium Vodka",
        price := 999, abv := 40, image := "images/vodka.jpg", category := "vodka",
        description := "Ultra-pure vodka with crystal clarity" },
      { id := "black-tot-rum", name := "Black Tot Premium Rum",
        price := 899, abv := 42, image := "images/blacktot.jpg", category := "rum",
        description := "Caribbean rum with rich molasses flavor" },
      { id := "black-white-scotch", name := "Black & White Scotch Whisky",
        price := 1099, abv := 43, image := "images/blackwhite.jpg", category := "whisky",
        description := "Blended Scotch with smoky undertones" },
      { id := "old-monk-rum", name := "Old Monk Dark Rum",
        price := 499, abv := 42, image := "images/oldmonk.jpg", category := "rum",
        description := "Classic Indian dark rum with vanilla notes" } ] }

/- ========================================
   formatCurrency (src/script.js lines 191-197)
   ======================================== -/

/-- A JS value handed to `formatCurrency`: a finite number (all amounts in
the program are integers), `NaN`, or a value whose `typeof` is not
`'number'`. -/
inductive JSAmount where
  | num (n : Int)
  | nan
  | notNumber
deriving DecidableEq

/-- Digit grouping of `Number.prototype.toLocaleString('en-IN')`, working
on the reversed (least-significant-first) digit list beyond the last
three digits: a comma before each further group of two. -/
def indianGroupsRev : Nat → List Char → List Char
  | 0, _ => []
  | _, [] => []
  | fuel + 1, l => ',' :: l.take 2 ++ indianGroupsRev fuel (l.drop 2)

/-- `Number.prototype.toLocaleString('en-IN')` for integers: decimal
digits with Indian grouping (last group of three, then groups of two). -/
def toLocaleStringEnIN (n : Int) : String :=
  let rev := (toString n.natAbs).data.reverse
  (if n < 0 then "-" else "") ++ ⟨(rev.take 3 ++ indianGroupsRev rev.length (rev.drop 3)).reverse⟩

/-- `formatCurrency` (lines 191-197): non-numbers and `NaN` format as
`"₹0"` (after a logged warning), numbers as the symbol followed by the
locale-grouped amount. -/
def formatCurrency (amount : JSAmount) : String :=
  match amount with
  | .num n => CONFIG.CURRENCY_SYMBOL ++ toLocaleStringEnIN n
  | .nan => CONFIG.CURRENCY_SYMBOL ++ "0"
  | .notNumber => CONFIG.CURRENCY_SYMBOL ++ "0"

/- ========================================
   Validator (src/script.js lines 262-319)
   ======================================== -/

/-- Result shape `{isValid, message}` of the simple field validators. -/
structure FieldValidation where
  isValid : Bool
  message : String
deriving DecidableEq

/-- Result shape `{isValid, value, message}` of `Validator.validatePhone`. -/
structure PhoneValidation where
  isValid : Bool
  value : String
  message : String
deriving DecidableEq

/-- `Validator.validateName` (lines 268-275): trimmed length at least
`MIN_NAME_LENGTH`. -/
def Validator.validateName (name : String) : FieldValidation :=
  let trimmedName := jsTrim name
  let isValid := decide (CONFIG.MIN_NAME_LENGTH ≤ trimmedName.length)
  { isValid := isValid,
    message := if isValid then "" else
      "Name must be at least " ++ toString CONFIG.MIN_NAME_LENGTH ++ " characters long" }

/-- `Validator.validatePhone` (lines 282-290): trim, strip all whitespace,
then test `PHONE_REGEX`; the normalized value is returned in both cases. -/
def Validator.validatePhone (phone : String) : PhoneValidation :=
  let trimmedPhone := removeWhitespace (jsTrim phone)
  let isValid := phoneRegexTest trimmedPhone
  { isValid := isValid,
    value := trimmedPhone,
    message := if isValid then "" else "Please enter a valid 10-digit Indian mobile number" }

/-- `Validator.validateAddress` (lines 297-304): trimmed length at least
`MIN_ADDRESS_LENGTH`. -/
def Validator.validateAddress (address : String) : FieldValidation :=
  let trimmedAddress := jsTrim address
  let isValid := decide (CONFIG.MIN_ADDRESS_LENGTH ≤ trimmedAddress.length)
  { isValid := isValid,
    message := if isValid then "" else
      "Address must be at least " ++ toString CONFIG.MIN_ADDRESS_LENGTH ++ " characters long" }

/-- `Validator.validatePIN` (lines 311-318): trimmed value must match
`PIN_REGEX`. -/
def Validator.validatePIN (pin : String) : FieldValidation :=
  let trimmedPIN := jsTrim pin
  let isValid := pinRegexTest trimmedPIN
  { isValid := isValid,
    message := if isValid then "" else "Please enter a valid 6-digit PIN code" }

/- ========================================
   ProductManager (src/script.js lines 328-365)
   ======================================== -/

/-- `ProductManager.getProductById` (lines 340-342): first catalog product
with the given id, or `null`. -/
def ProductManager.getProductById (productId : String) : Option Product :=
  PRODUCT_CATALOG.products.find? (fun product => product.id == productId)

/- ========================================
   Storage (src/script.js lines 202-257) and the persisted store
   ======================================== -/

/-- Order form input: a flat field-to-string mapping with exactly the
keys the order page collects (lines 872-880); a missing field is the
empty string. -/
structure FormData where
  name : String
  phone : String
  address : String
  city : String
  pin : String
  payment : String
  quantity : String
deriving DecidableEq

/-- ETA record returned by `OrderManager.generateETA` (lines 433-442).
`date` is the delivery `Date` as milliseconds since the epoch. -/
structure ETA where
  date : Nat
  dateString : String
  daysFromNow : Nat
  relative : String
deriving DecidableEq

/-- Booking record assembled by `OrderManager.processOrder`
(lines 539-547). -/
structure Booking where
  id : String
  createdAt : String
  status : String
  customer : FormData
  product : Product
  eta : ETA
  totalAmount : Int
deriving DecidableEq

/-- The browser `localStorage`, restricted to the keys the application
owns (`CONFIG.STORAGE_KEYS.SELECTED_PRODUCT` and `.BOOKING_DATA`; the
`USER_PREFERENCES` key is reserved and never written).  `setFails`
models the `try/catch` failure branch of `Storage.setItem`. -/
structure Store where
  selected : Option Product
  bookingData : Option Booking
  setFails : Bool
deriving DecidableEq

/-- `Storage.setItem` (lines 209-217) at the `SELECTED_PRODUCT` key:
returns the success flag and the updated store; on failure nothing is
written. -/
def Storage.setSelectedItem (value : Product) (s : Store) : Bool × Store :=
  if s.setFails then (false, s) else (true, { s with selected := some value })

/-- `Storage.setItem` (lines 209-217) at the `BOOKING_DATA` key. -/
def Storage.setBookingItem (value : Booking) (s : Store) : Bool × Store :=
  if s.setFails then (false, s) else (true, { s with bookingData := some value })

/-- `Storage.getItem` (lines 224-232) at the `SELECTED_PRODUCT` key:
the stored value or `null`. -/
def Storage.getSelectedItem (s : Store) : Option Product :=
  s.selected

/-- `Storage.getItem` (lines 224-232) at the `BOOKING_DATA` key. -/
def Storage.getBookingItem (s : Store) : Option Booking :=
  s.bookingData

/-- `Storage.removeItem` (lines 239-247) at the `SELECTED_PRODUCT` key
(`localStorage.removeItem` does not throw, so it always succeeds). -/
def Storage.removeSelectedItem (s : Store) : Bool × Store :=
  (true, { s with selected := none })

/- ========================================
   SelectionManager (src/script.js lines 370-410)
   ======================================== -/

/-- `SelectionManager.selectProduct` (lines 376-389): look the product up;
if absent report failure without persisting, otherwise persist it as the
current selection (the UI summary refresh is presentation-only). -/
def SelectionManager.selectProduct (productId : String) (s : Store) : Bool × Store :=
  match ProductManager.getProductById productId with
  | none => (false, s)
  | some product => Storage.setSelectedItem product s

/-- `SelectionManager.getSelectedProduct` (lines 395-397). -/
def SelectionManager.getSelectedProduct (s : Store) : Option Product :=
  Storage.getSelectedItem s

/-- `SelectionManager.clearSelection` (lines 403-409). -/
def SelectionManager.clearSelection (s : Store) : Bool × Store :=
  Storage.removeSelectedItem s

/- ========================================
   OrderManager (src/script.js lines 415-557)
   ======================================== -/

/-- Digit character used by JS `Number.prototype.toString(36)`. -/
def base36digit (d : Nat) : Char :=
  if d < 10 then Char.ofNat (48 + d) else Char.ofNat (87 + d)

/-- Base-36 representation, most significant digit first (fuel-based; the
fuel `n + 1` always suffices since the value shrinks by division). -/
def natToBase36Aux : Nat → Nat → List Char → List Char
  | 0, _, acc => acc
  | fuel + 1, n, acc =>
    if n < 36 then base36digit n :: acc
    else natToBase36Aux fuel (n / 36) (base36digit (n % 36) :: acc)

/-- JS `n.toString(36)` for naturals. -/
def natToBase36 (n : Nat) : String :=
  ⟨natToBase36Aux (n + 1) n []⟩

/-- Host-supplied inputs of one `processOrder` call: the clock, the
day of week (`Date.getDay()`: 0 = Sunday, 6 = Saturday), the single ETA
random draw (modelling `Math.floor(Math.random() * (MAX_DAYS -
MIN_DAYS + 1))`, always in `[0, MAX_DAYS - MIN_DAYS]`), the random order
id suffix, and the host date formatters (`toLocaleDateString` /
`toISOString`). -/
structure OrderEnv where
  nowMs : Nat
  dayOfWeek : Nat
  etaDraw : Nat
  idRand : String
  dateFmt : Nat → String
  isoFmt : Nat → String

/-- `OrderManager.generateETA` (lines 420-443): base days are the random
draw shifted into `[MIN_DAYS, MAX_DAYS]`, plus `WEEKEND_DELAY` on
Saturday or Sunday; the delivery date is now plus that many days, and
every returned field is derived from the same single draw. -/
def OrderManager.generateETA (dateFmt : Nat → String) (dayOfWeek nowMs draw : Nat) : ETA :=
  let baseDays := draw + CONFIG.MIN_DAYS
  let baseDays := if dayOfWeek == 0 || dayOfWeek == 6 then baseDays + CONFIG.WEEKEND_DELAY else baseDays
  let deliveryMs := nowMs + baseDays * 24 * 60 * 60 * 1000
  { date := deliveryMs,
    dateString := dateFmt deliveryMs,
    daysFromNow := baseDays,
    relative := if baseDays == 1 then "Tomorrow" else toString baseDays ++ " days" }

/-- `OrderManager.generateOrderId` (lines 449-453): base-36 timestamp and
random suffix behind a fixed literal, upper-cased. -/
def OrderManager.generateOrderId (nowMs : Nat) (idRand : String) : String :=
  ("LLX-" ++ natToBase36 nowMs ++ "-" ++ idRand).toUpper

/-- The inlined city check of `validateOrderForm` (lines 486-489):
`!formData.city || formData.city.trim().length < 2` flags an error. -/
def cityCheck (city : String) : Bool :=
  !(city == "" || (jsTrim city).length < 2)

/-- The inlined payment check of `validateOrderForm` (lines 499-502):
`!formData.payment` flags an error. -/
def paymentCheck (payment : String) : Bool :=
  !(payment == "")

/-- The quantity check of `validateOrderForm` (lines 504-509):
`parseInt(formData.quantity, 10)` must be a number in `[1, 10]`
(`isNaN(quantity) || quantity < 1 || quantity > 10` flags an error). -/
def quantityCheck (quantity : String) : Bool :=
  match parseInt10 quantity with
  | none => false
  | some n => !(n < 1 || n > 10)

/-- Result shape of `validateOrderForm`: the overall flag, the
field-to-message error mapping in insertion order, and the validated
data (the input with the phone normalized). -/
structure ValidationResult where
  isValid : Bool
  errors : List (String × String)
  validatedData : FormData
deriving DecidableEq

/-- `OrderManager.validateOrderForm` (lines 460-512): run every field
check, record an error entry per failing field (in source order), and be
valid only when all checks pass; `validatedData` is the input with the
phone replaced by the phone validator's normalized value. -/
def OrderManager.validateOrderForm (formData : FormData) : ValidationResult :=
  let nameValidation := Validator.validateName formData.name
  let phoneValidation := Validator.validatePhone formData.phone
  let addressValidation := Validator.validateAddress formData.address
  let cityOk := cityCheck formData.city
  let pinValidation := Validator.validatePIN formData.pin
  let paymentOk := paymentCheck formData.payment
  let quantityOk := quantityCheck formData.quantity
  let errors :=
    (if !nameValidation.isValid then [("name", nameValidation.message)] else []) ++
    (if !phoneValidation.isValid then [("phone", phoneValidation.message)] else []) ++
    (if !addressValidation.isValid then [("address", addressValidation.message)] else []) ++
    (if !cityOk then [("city", "Please enter a valid city name")] else []) ++
    (if !pinValidation.isValid then [("pin", pinValidation.message)] else []) ++
    (if !paymentOk then [("payment", "Please select a payment method")] else []) ++
    (if !quantityOk then [("quantity", "Quantity must be between 1 and 10")] else [])
  let isValid := nameValidation.isValid && phoneValidation.isValid &&
    addressValidation.isValid && cityOk && pinValidation.isValid && paymentOk && quantityOk
  { isValid := isValid,
    errors := errors,
    validatedData := { formData with phone := phoneValidation.value } }

/-- Result shape of `processOrder` (tri-state): `{success:false, error}`
for selection/persistence failures, `{success:false, errors}` for field
validation failures, `{success:true, booking}` on success.  A field the
JS object omits (or sets to `null`) is `none`. -/
structure OrderResult where
  success : Bool
  error : Option String
  errors : Option (List (String × String))
  booking : Option Booking
deriving DecidableEq

/-- `OrderManager.processOrder` (lines 519-556): require a selection,
validate the form, then assemble the booking (total = price times the
re-parsed quantity; the quantity check guarantees the parse succeeds, so
the `getD 0` default is unreachable) and persist it, reporting the
persistence outcome. -/
def OrderManager.processOrder (env : OrderEnv) (formData : FormData) (s : Store) :
    OrderResult × Store :=
  match SelectionManager.getSelectedProduct s with
  | none =>
    ({ success := false,
       error := some "No product selected. Please select a product from the menu first.",
       errors := none, booking := none }, s)
  | some selectedProduct =>
    let validation := OrderManager.validateOrderForm formData
    if !validation.isValid then
      ({ success := false, error := none, errors := some validation.errors,
         booking := none }, s)
    else
      let orderId := OrderManager.generateOrderId env.nowMs env.idRand
      let eta := OrderManager.generateETA env.dateFmt env.dayOfWeek env.nowMs env.etaDraw
      let booking : Booking :=
        { id := orderId,
          createdAt := env.isoFmt env.nowMs,
          status := "confirmed",
          customer := validation.validatedData,
          product := selectedProduct,
          eta := eta,
          totalAmount := (selectedProduct.price : Int) *
            ((parseInt10 validation.validatedData.quantity).getD 0) }
      let saveResult := Storage.setBookingItem booking s
      ({ success := saveResult.1,
         error := if saveResult.1 then none else some "Failed to save order. Please try again.",
         errors := none,
         booking := if saveResult.1 then some booking else none }, saveResult.2)

/- ========================================
   Helper lemmas
   ======================================== -/

/-- A character between `'6'` and `'9'` is one of those four digits. -/
theorem char_between_six_nine (c : Char) :
    ('6' ≤ c ∧ c ≤ '9') ↔ (c = '6' ∨ c = '7' ∨ c = '8' ∨ c = '9') := by
  constructor
  · rintro ⟨h1, h2⟩
    have h1n : ('6' : Char).val.toNat ≤ c.val.toNat := by exact_mod_cast h1
    have h2n : c.val.toNat ≤ ('9' : Char).val.toNat := by exact_mod_cast h2
    have e6 : ('6' : Char).val.toNat = 54 := by decide
    have e9 : ('9' : Char).val.toNat = 57 := by decide
    have h : c.val.toNat = 54 ∨ c.val.toNat = 55 ∨ c.val.toNat = 56 ∨ c.val.toNat = 57 := by
      omega
    rcases h with h | h | h | h
    · exact Or.inl (Char.ext (UInt32.ext (by rw [h]; decide)))
    · exact Or.inr (Or.inl (Char.ext (UInt32.ext (by rw [h]; decide))))
    · exact Or.inr (Or.inr (Or.inl (Char.ext (UInt32.ext (by rw [h]; decide)))))
    · exact Or.inr (Or.inr (Or.inr (Char.ext (UInt32.ext (by rw [h]; decide)))))
  · rintro (rfl | rfl | rfl | rfl) <;> exact ⟨by decide, by decide⟩

/-- A character between `'6'` and `'9'` is a decimal digit. -/
theorem char_between_isDigit (c : Char) (h1 : '6' ≤ c) (h2 : c ≤ '9') : c.isDigit = true := by
  rcases (char_between_six_nine c).mp ⟨h1, h2⟩ with rfl | rfl | rfl | rfl <;> decide

/-- The phone regex test holds exactly on strings of ten decimal digits
whose first character is `'6'`, `'7'`, `'8'` or `'9'`. -/
theorem phoneRegexTest_iff (s : String) :
    phoneRegexTest s = true ↔
      (s.data.length = 10 ∧ (∀ c ∈ s.data, c.isDigit = true) ∧
       ∃ c rest, s.data = c :: rest ∧ (c = '6' ∨ c = '7' ∨ c = '8' ∨ c = '9')) := by
  unfold phoneRegexTest
  cases h : s.data with
  | nil => simp [h]
  | cons c rest =>
    simp only [h, Bool.and_eq_true, decide_eq_true_eq, beq_iff_eq, List.all_eq_true,
      List.length_cons, List.mem_cons]
    constructor
    · rintro ⟨⟨⟨h6, h9⟩, hlen⟩, hdig⟩
      refine ⟨by omega, ?_, c, rest, rfl, (char_between_six_nine c).mp ⟨h6, h9⟩⟩
      rintro x (rfl | hx)
      · exact char_between_isDigit x h6 h9
      · exact hdig x hx
    · rintro ⟨hlen, hdig, c', rest', heq, hc⟩
      obtain ⟨rfl, rfl⟩ : c = c' ∧ rest = rest' := by
        constructor <;> [exact (List.cons.injEq ..).mp heq |>.1;
          exact (List.cons.injEq ..).mp heq |>.2]
      have hrange : '6' ≤ c ∧ c ≤ '9' := (char_between_six_nine c).mpr hc
      exact ⟨⟨hrange, by omega⟩, fun x hx => hdig x (Or.inr hx)⟩

/- ========================================
   Claim theorems
   ======================================== -/

/-- C5: for every input string, the phone validator reports `isValid`
exactly when the input, after trimming and removal of all internal
whitespace, is a string of exactly ten decimal digits whose first digit
is 6, 7, 8 or 9, and it returns the normalized (whitespace-stripped)
value in both the valid and the invalid case. -/
theorem validatePhone_spec (phone : String) :
    ((Validator.validatePhone phone).isValid = true ↔
      ((removeWhitespace (jsTrim phone)).data.length = 10 ∧
       (∀ c ∈ (removeWhitespace (jsTrim phone)).data, c.isDigit = true) ∧
       ∃ c rest, (removeWhitespace (jsTrim phone)).data = c :: rest ∧
         (c = '6' ∨ c = '7' ∨ c = '8' ∨ c = '9'))) ∧
    (Validator.validatePhone phone).value = removeWhitespace (jsTrim phone) :=
  ⟨phoneRegexTest_iff (removeWhitespace (jsTrim phone)), rfl⟩

/-- C6: the quantity check of `validateOrderForm` accepts an input
exactly when it parses (as JS `parseInt`) to an integer in `[1, 10]`;
non-numeric input is invalid, `"0"`, `"11"`, `"abc"` and `""` are
rejected, and the boundary values `"1"` and `"10"` are accepted. -/
theorem quantityCheck_spec :
    (∀ q : String, quantityCheck q = true ↔
      ∃ n : Int, parseInt10 q = some n ∧ 1 ≤ n ∧ n ≤ 10) ∧
    quantityCheck "0" = false ∧ quantityCheck "11" = false ∧
    quantityCheck "abc" = false ∧ quantityCheck "" = false ∧
    quantityCheck "1" = true ∧ quantityCheck "10" = true := by
  refine ⟨fun q => ?_, by decide, by decide, by decide, by decide, by decide, by decide⟩
  unfold quantityCheck
  cases h : parseInt10 q with
  | none => simp
  | some n =>
    simp only [Bool.not_eq_true', Bool.or_eq_false_iff, decide_eq_false_iff_not, not_lt,
      Option.some.injEq]
    constructor
    · rintro ⟨h1, h2⟩; exact ⟨n, rfl, h1, h2⟩
    · rintro ⟨m, rfl, h1, h2⟩; exact ⟨h1, h2⟩

/-- C7: every product of the static catalog is returned by
`getProductById` at its own id, and an id matching no catalog product
returns `null`. -/
theorem getProductById_spec :
    (∀ p ∈ PRODUCT_CATALOG.products, ProductManager.getProductById p.id = some p) ∧
    (∀ productId : String, (∀ p ∈ PRODUCT_CATALOG.products, p.id ≠ productId) →
      ProductManager.getProductById productId = none) := by
  constructor
  · intro p hp
    fin_cases hp <;> rfl
  · intro productId h
    unfold ProductManager.getProductById
    rw [List.find?_eq_none]
    intro p hp
    simpa using h p hp

/-- Witness for C7 at a concrete absent id. -/
theorem getProductById_spec_witness : ProductManager.getProductById "no-such-id" = none :=
  getProductById_spec.2 "no-such-id" (by decide)

/-- C8: for an id present in the catalog, selecting it, clearing the
selection, then reading the selection yields the absent indicator. -/
theorem select_clear_get_spec (productId : String) (s : Store)
    (_h : ∃ p ∈ PRODUCT_CATALOG.products, p.id = productId) :
    SelectionManager.getSelectedProduct
      ((SelectionManager.clearSelection
        ((SelectionManager.selectProduct productId s).2)).2) = none := rfl

/-- Witness for C8 at a concrete catalog id and store. -/
theorem select_clear_get_spec_witness :
    SelectionManager.getSelectedProduct
      ((SelectionManager.clearSelection
        ((SelectionManager.selectProduct "old-monk-rum" ⟨none, none, false⟩).2)).2) = none :=
  select_clear_get_spec "old-monk-rum" ⟨none, none, false⟩ (by decide)

/-- C9: `formatCurrency 1299` yields a symbol-prefixed, locale-grouped
string containing `"1,299"`, and every non-numeric argument (including
`NaN`) formats as the zero-amount string `"₹0"` without throwing. -/
theorem formatCurrency_spec :
    (∃ pre post : String, formatCurrency (.num 1299) = pre ++ "1,299" ++ post) ∧
    formatCurrency .nan = "₹0" ∧ formatCurrency .notNumber = "₹0" :=
  ⟨⟨"₹", "", by decide⟩, by decide, by decide⟩

/-- `validateOrderForm` is valid exactly when all seven checks pass. -/
theorem validateOrderForm_isValid_eq (fd : FormData) :
    (OrderManager.validateOrderForm fd).isValid =
      ((Validator.validateName fd.name).isValid && (Validator.validatePhone fd.phone).isValid &&
       (Validator.validateAddress fd.address).isValid && cityCheck fd.city &&
       (Validator.validatePIN fd.pin).isValid && paymentCheck fd.payment &&
       quantityCheck fd.quantity) := rfl

/-- The error mapping of `validateOrderForm`, one conditional entry per
field in source order. -/
theorem validateOrderForm_errors_eq (fd : FormData) :
    (OrderManager.validateOrderForm fd).errors =
      (if !(Validator.validateName fd.name).isValid then
        [("name", (Validator.validateName fd.name).message)] else []) ++
      (if !(Validator.validatePhone fd.phone).isValid then
        [("phone", (Validator.validatePhone fd.phone).message)] else []) ++
      (if !(Validator.validateAddress fd.address).isValid then
        [("address", (Validator.validateAddress fd.address).message)] else []) ++
      (if !cityCheck fd.city then [("city", "Please enter a valid city name")] else []) ++
      (if !(Validator.validatePIN fd.pin).isValid then
        [("pin", (Validator.validatePIN fd.pin).message)] else []) ++
      (if !paymentCheck fd.payment then [("payment", "Please select a payment method")] else []) ++
      (if !quantityCheck fd.quantity then
        [("quantity", "Quantity must be between 1 and 10")] else []) := rfl

/-- An invalid form always carries at least one error entry. -/
theorem validateOrderForm_errors_ne_nil (fd : FormData)
    (h : (OrderManager.validateOrderForm fd).isValid = false) :
    (OrderManager.validateOrderForm fd).errors ≠ [] := by
  rw [validateOrderForm_isValid_eq] at h
  rw [validateOrderForm_errors_eq]
  cases h1 : (Validator.validateName fd.name).isValid <;>
  cases h2 : (Validator.validatePhone fd.phone).isValid <;>
  cases h3 : (Validator.validateAddress fd.address).isValid <;>
  cases h4 : cityCheck fd.city <;>
  cases h5 : (Validator.validatePIN fd.pin).isValid <;>
  cases h6 : paymentCheck fd.payment <;>
  cases h7 : quantityCheck fd.quantity <;>
  simp_all

/-- C3: `validateOrderForm` is total and returns `isValid` exactly when
all seven field checks pass; otherwise it is invalid with a non-empty
error mapping holding an entry for every failing field (all failures
reported together); `validatedData` is the raw input with only the phone
replaced by the phone validator's normalized value. -/
theorem validateOrderForm_spec (fd : FormData) :
    ((OrderManager.validateOrderForm fd).isValid = true ↔
      ((Validator.validateName fd.name).isValid = true ∧
       (Validator.validatePhone fd.phone).isValid = true ∧
       (Validator.validateAddress fd.address).isValid = true ∧
       cityCheck fd.city = true ∧
       (Validator.validatePIN fd.pin).isValid = true ∧
       paymentCheck fd.payment = true ∧
       quantityCheck fd.quantity = true)) ∧
    ((OrderManager.validateOrderForm fd).isValid = false →
      (OrderManager.validateOrderForm fd).errors ≠ []) ∧
    ((Validator.validateName fd.name).isValid = false →
      ∃ m, ("name", m) ∈ (OrderManager.validateOrderForm fd).errors) ∧
    ((Validator.validatePhone fd.phone).isValid = false →
      ∃ m, ("phone", m) ∈ (OrderManager.validateOrderForm fd).errors) ∧
    ((Validator.validateAddress fd.address).isValid = false →
      ∃ m, ("address", m) ∈ (OrderManager.validateOrderForm fd).errors) ∧
    (cityCheck fd.city = false →
      ∃ m, ("city", m) ∈ (OrderManager.validateOrderForm fd).errors) ∧
    ((Validator.validatePIN fd.pin).isValid = false →
      ∃ m, ("pin", m) ∈ (OrderManager.validateOrderForm fd).errors) ∧
    (paymentCheck fd.payment = false →
      ∃ m, ("payment", m) ∈ (OrderManager.validateOrderForm fd).errors) ∧
    (quantityCheck fd.quantity = false →
      ∃ m, ("quantity", m) ∈ (OrderManager.validateOrderForm fd).errors) ∧
    (OrderManager.validateOrderForm fd).validatedData =
      { fd with phone := (Validator.validatePhone fd.phone).value } := by
  refine ⟨?_, validateOrderForm_errors_ne_nil fd, ?_, ?_, ?_, ?_, ?_, ?_, ?_, rfl⟩
  · rw [validateOrderForm_isValid_eq]
    simp [and_assoc]
  · intro h
    refine ⟨(Validator.validateName fd.name).message, ?_⟩
    rw [validateOrderForm_errors_eq]; simp [h]
  · intro h
    refine ⟨(Validator.validatePhone fd.phone).message, ?_⟩
    rw [validateOrderForm_errors_eq]; simp [h]
  · intro h
    refine ⟨(Validator.validateAddress fd.address).message, ?_⟩
    rw [validateOrderForm_errors_eq]; simp [h]
  · intro h
    refine ⟨"Please enter a valid city name", ?_⟩
    rw [validateOrderForm_errors_eq]; simp [h]
  · intro h
    refine ⟨(Validator.validatePIN fd.pin).message, ?_⟩
    rw [validateOrderForm_errors_eq]; simp [h]
  · intro h
    refine ⟨"Please select a payment method", ?_⟩
    rw [validateOrderForm_errors_eq]; simp [h]
  · intro h
    refine ⟨"Quantity must be between 1 and 10", ?_⟩
    rw [validateOrderForm_errors_eq]; simp [h]

/-- Witness for C3: the all-empty form is invalid with a non-empty error
mapping. -/
theorem validateOrderForm_spec_witness :
    (OrderManager.validateOrderForm ⟨"", "", "", "", "", "", ""⟩).errors ≠ [] :=
  (validateOrderForm_spec ⟨"", "", "", "", "", "", ""⟩).2.1 (by decide)

/-- C2: with no persisted selection, `processOrder` fails with the single
no-product-selected error string, no field-level error mapping, and no
store change, regardless of the form's content; the validation-failure
shape, by contrast, carries the (non-empty) field-to-message mapping and
no single error string. -/
theorem processOrder_no_selection_spec (env : OrderEnv) (fd : FormData) (s : Store)
    (h : SelectionManager.getSelectedProduct s = none) :
    (OrderManager.processOrder env fd s =
      ({ success := false,
         error := some "No product selected. Please select a product from the menu first.",
         errors := none, booking := none }, s)) ∧
    (∀ fd2 s2 p, SelectionManager.getSelectedProduct s2 = some p →
      (OrderManager.validateOrderForm fd2).isValid = false →
      (OrderManager.processOrder env fd2 s2).1.error = none ∧
      (OrderManager.processOrder env fd2 s2).1.errors =
        some (OrderManager.validateOrderForm fd2).errors ∧
      (OrderManager.validateOrderForm fd2).errors ≠ []) := by
  constructor
  · unfold OrderManager.processOrder
    rw [h]
  · intro fd2 s2 p hp hv
    unfold OrderManager.processOrder
    rw [hp]
    simp only [hv, Bool.not_false, if_true]
    refine ⟨?_, ?_, validateOrderForm_errors_ne_nil fd2 hv⟩ <;> trivial

/-- C1: with a selection and a fully valid form, `processOrder` succeeds
exactly when persisting the booking succeeds; on success the booking's
`totalAmount` is the selected product's price times the quantity parsed
as an integer, and a subsequent read of the persisted booking returns
the same record; on persistence failure it reports the generic retry
error even though validation succeeded. -/
theorem processOrder_valid_spec (env : OrderEnv) (fd : FormData) (s : Store) (p : Product)
    (hsel : SelectionManager.getSelectedProduct s = some p)
    (hvalid : (OrderManager.validateOrderForm fd).isValid = true) :
    ((OrderManager.processOrder env fd s).1.success = true ↔ s.setFails = false) ∧
    (s.setFails = false →
      ∃ b n, (OrderManager.processOrder env fd s).1.booking = some b ∧
        parseInt10 fd.quantity = some n ∧ 1 ≤ n ∧ n ≤ 10 ∧
        b.totalAmount = (p.price : Int) * n ∧
        Storage.getBookingItem (OrderManager.processOrder env fd s).2 = some b) ∧
    (s.setFails = true →
      (OrderManager.processOrder env fd s).1.success = false ∧
      (OrderManager.processOrder env fd s).1.error =
        some "Failed to save order. Please try again.") := by
  have hq : quantityCheck fd.quantity = true := by
    have h := hvalid
    rw [validateOrderForm_isValid_eq] at h
    simp only [Bool.and_eq_true] at h
    exact h.2
  obtain ⟨n, hn, hn1, hn10⟩ : ∃ n : Int, parseInt10 fd.quantity = some n ∧ 1 ≤ n ∧ n ≤ 10 := by
    unfold quantityCheck at hq
    cases hpq : parseInt10 fd.quantity with
    | none => rw [hpq] at hq; simp at hq
    | some m =>
      rw [hpq] at hq
      simp only [Bool.not_eq_true', Bool.or_eq_false_iff, decide_eq_false_iff_not, not_lt] at hq
      exact ⟨m, rfl, hq.1, hq.2⟩
  have hqd : (OrderManager.validateOrderForm fd).validatedData.quantity = fd.quantity := rfl
  unfold OrderManager.processOrder
  rw [hsel]
  simp only [hvalid, Bool.not_true, Bool.false_eq_true, if_false]
  unfold Storage.setBookingItem
  cases hsf : s.setFails with
  | true =>
    simp only [if_true]
    exact ⟨by simp, fun h => by simp at h, fun _ => ⟨by trivial, by trivial⟩⟩
  | false =>
    simp only [Bool.false_eq_true, if_false]
    refine ⟨by simp, fun _ => ⟨_, n, rfl, hn, hn1, hn10, ?_, rfl⟩, fun h => by simp at h⟩
    simp only [hqd, hn, Option.getD_some]

/-- C10: `processOrder` writes nothing on its first two failure modes
(no selection, invalid form) — the store is returned unchanged — and in
every case the only store write it can make is the single booking write
after validation succeeded. -/
theorem processOrder_atomic_spec (env : OrderEnv) (fd : FormData) (s : Store) :
    ((SelectionManager.getSelectedProduct s = none ∨
      (OrderManager.validateOrderForm fd).isValid = false) →
      (OrderManager.processOrder env fd s).2 = s) ∧
    ((OrderManager.processOrder env fd s).2 = s ∨
      ∃ b, (OrderManager.processOrder env fd s).1.success = true ∧
        (OrderManager.processOrder env fd s).1.booking = some b ∧
        (OrderManager.processOrder env fd s).2 = { s with bookingData := some b }) := by
  unfold OrderManager.processOrder
  cases hsel : SelectionManager.getSelectedProduct s with
  | none => simp
  | some p =>
    cases hv : (OrderManager.validateOrderForm fd).isValid with
    | false => simp [hv]
    | true =>
      simp only [hv, Bool.not_true, Bool.false_eq_true, if_false, reduceCtorEq, or_false,
        false_or]
      unfold Storage.setBookingItem
      cases hsf : s.setFails with
      | true => exact ⟨fun h => h.elim, Or.inl rfl⟩
      | false =>
        constructor
        · intro hcon
          exact hcon.elim
        · right
          exact ⟨_, rfl, by simp, rfl⟩

/-- C4: the ETA's `daysFromNow` lies in `[MIN_DAYS, MAX_DAYS]` on a
weekday and in `[MIN_DAYS + 1, MAX_DAYS + 1]` on Saturday or Sunday; the
delivery date is now plus `daysFromNow` days, the display string formats
that same date, and the relative label is `"Tomorrow"` exactly when
`daysFromNow` is 1 and `"<n> days"` otherwise — all from the one draw. -/
theorem generateETA_spec (dateFmt : Nat → String) (dayOfWeek nowMs draw : Nat)
    (hdraw : draw ≤ CONFIG.MAX_DAYS - CONFIG.MIN_DAYS) :
    (¬(dayOfWeek = 0 ∨ dayOfWeek = 6) →
      CONFIG.MIN_DAYS ≤ (OrderManager.generateETA dateFmt dayOfWeek nowMs draw).daysFromNow ∧
      (OrderManager.generateETA dateFmt dayOfWeek nowMs draw).daysFromNow ≤ CONFIG.MAX_DAYS) ∧
    ((dayOfWeek = 0 ∨ dayOfWeek = 6) →
      CONFIG.MIN_DAYS + 1 ≤ (OrderManager.generateETA dateFmt dayOfWeek nowMs draw).daysFromNow ∧
      (OrderManager.generateETA dateFmt dayOfWeek nowMs draw).daysFromNow ≤
        CONFIG.MAX_DAYS + 1) ∧
    (OrderManager.generateETA dateFmt dayOfWeek nowMs draw).date =
      nowMs + (OrderManager.generateETA dateFmt dayOfWeek nowMs draw).daysFromNow *
        24 * 60 * 60 * 1000 ∧
    (OrderManager.generateETA dateFmt dayOfWeek nowMs draw).dateString =
      dateFmt (OrderManager.generateETA dateFmt dayOfWeek nowMs draw).date ∧
    ((OrderManager.generateETA dateFmt dayOfWeek nowMs draw).relative = "Tomorrow" ↔
      (OrderManager.generateETA dateFmt dayOfWeek nowMs draw).daysFromNow = 1) ∧
    ((OrderManager.generateETA dateFmt dayOfWeek nowMs draw).daysFromNow ≠ 1 →
      (OrderManager.generateETA dateFmt dayOfWeek nowMs draw).relative =
        toString (OrderManager.generateETA dateFmt dayOfWeek nowMs draw).daysFromNow
          ++ " days") := by
  have hdraw' : draw ≤ 3 := hdraw
  refine ⟨?_, ?_, ?_, rfl, ?_⟩
  · intro hw
    have hb : (dayOfWeek == 0 || dayOfWeek == 6) = false := by
      push_neg at hw
      simp only [Bool.or_eq_false_iff, beq_eq_false_iff_ne, ne_eq]
      exact ⟨hw.1, hw.2⟩
    unfold OrderManager.generateETA
    simp only [hb, Bool.false_eq_true, if_false]
    unfold CONFIG.MIN_DAYS CONFIG.MAX_DAYS
    constructor <;> omega
  · intro hw
    have hb : (dayOfWeek == 0 || dayOfWeek == 6) = true := by
      rcases hw with rfl | rfl <;> simp
    unfold OrderManager.generateETA
    simp only [hb, if_true]
    unfold CONFIG.MIN_DAYS CONFIG.MAX_DAYS CONFIG.WEEKEND_DELAY
    constructor <;> omega
  · show (OrderManager.generateETA dateFmt dayOfWeek nowMs draw).date =
      nowMs + (OrderManager.generateETA dateFmt dayOfWeek nowMs draw).daysFromNow *
        24 * 60 * 60 * 1000
    rfl
  · by_cases hw : dayOfWeek = 0 ∨ dayOfWeek = 6
    · have hb : (dayOfWeek == 0 || dayOfWeek == 6) = true := by
        rcases hw with rfl | rfl <;> simp
      unfold OrderManager.generateETA
      simp only [hb, if_true]
      interval_cases draw <;> decide
    · have hb : (dayOfWeek == 0 || dayOfWeek == 6) = false := by
        push_neg at hw
        simp only [Bool.or_eq_false_iff, beq_eq_false_iff_ne, ne_eq]
        exact ⟨hw.1, hw.2⟩
      unfold OrderManager.generateETA
      simp only [hb, Bool.false_eq_true, if_false]
      interval_cases draw <;> decide

/- ========================================
   Concrete sample values used by the witnesses
   ======================================== -/

/-- A concrete host environment for witness evaluations. -/
def sampleEnv : OrderEnv :=
  { nowMs := 0, dayOfWeek := 1, etaDraw := 0, idRand := "ab12",
    dateFmt := fun _ => "", isoFmt := fun _ => "" }

/-- A concrete catalog product for witness evaluations. -/
def sampleProduct : Product :=
  { id := "jack-premium-whisky", name := "Premium Whisky - Jack Daniels",
    price := 1299, abv := 40, image := "images/jack.jpg", category := "whisky",
    description := "Tennessee whiskey with smooth vanilla finish" }

/-- A concrete fully valid order form for witness evaluations. -/
def sampleForm : FormData :=
  { name := "Jo", phone := "987 654 3210", address := "Some Street Number 12",
    city := "Pune", pin := "400001", payment := "card", quantity := "2" }

/-- Witness for C2: a store with no selection yields exactly the
no-selection failure and an unchanged store. -/
theorem processOrder_no_selection_spec_witness :
    OrderManager.processOrder sampleEnv sampleForm ⟨none, none, false⟩ =
      ({ success := false,
         error := some "No product selected. Please select a product from the menu first.",
         errors := none, booking := none }, (⟨none, none, false⟩ : Store)) :=
  (processOrder_no_selection_spec sampleEnv sampleForm ⟨none, none, false⟩ rfl).1

/-- Witness for C1: the sample order on a working store succeeds. -/
theorem processOrder_valid_spec_witness :
    (OrderManager.processOrder sampleEnv sampleForm ⟨some sampleProduct, none, false⟩).1.success =
      true :=
  (processOrder_valid_spec sampleEnv sampleForm ⟨some sampleProduct, none, false⟩ sampleProduct
    rfl (by decide)).1.mpr rfl

/-- Witness for C10: an invalid form leaves the store unchanged. -/
theorem processOrder_atomic_spec_witness :
    (OrderManager.processOrder sampleEnv ⟨"", "", "", "", "", "", ""⟩
      ⟨some sampleProduct, none, false⟩).2 = ⟨some sampleProduct, none, false⟩ :=
  (processOrder_atomic_spec sampleEnv ⟨"", "", "", "", "", "", ""⟩
    ⟨some sampleProduct, none, false⟩).1 (Or.inr (by decide))

/-- Witness for C4: on a Monday with the zero draw the ETA is within the
weekday window. -/
theorem generateETA_spec_witness :
    CONFIG.MIN_DAYS ≤ (OrderManager.generateETA (fun _ => "") 1 0 0).daysFromNow ∧
    (OrderManager.generateETA (fun _ => "") 1 0 0).daysFromNow ≤ CONFIG.MAX_DAYS :=
  (generateETA_spec (fun _ => "") 1 0 0 (by decide)).1 (by decide)
